import Mathlib

/-!
Formal model of `visual_inspection.py`: the annotation-format normalizer
(`parse_annotations` and its helpers), the bounding-box rendering and image
saving paths, and the coordinate/zoom/erase logic of `BoundingBoxViewerApp`.

Modelling conventions:
* Python floats are idealised as exact rationals (`ℚ`); Python `int(...)`
  truncation toward zero is `pyInt`.
* File-system reads and the external JSON/XML/tokenizer libraries are
  abstracted: the model takes the already-decoded content as input, with
  explicit constructors for the decode failures the library calls can raise.
* Python exceptions are modelled with `Except PyErr`; the `try/except`
  blocks of the source become total wrappers that turn an error into the
  logged message plus the annotations accumulated so far, exactly as the
  source's handlers fall through to `return annotations`.
* `print` calls are modelled as an accumulated `List String` of log lines.
-/

/-- Python `int(q)` on a float value: truncation toward zero. -/
def pyInt (q : ℚ) : ℤ := if 0 ≤ q then ⌊q⌋ else ⌈q⌉

/-- Python `str.lower()` restricted to ASCII case folding (all extension
strings compared by the source are ASCII). -/
def pyLower (s : String) : String := String.mk (s.data.map Char.toLower)

/-- One normalized bounding box, as the dictionaries produced by
`parse_annotations` (keys `label`, `x_min`, `y_min`, `x_max`, `y_max`). -/
structure BBox where
  label : String
  x_min : ℤ
  y_min : ℤ
  x_max : ℤ
  y_max : ℤ
deriving DecidableEq, Repr

/-- The Python exception classes that can escape the parsing body
(`FileNotFoundError`, `json.JSONDecodeError`, `ET.ParseError`,
`ValueError`, plus the remaining `Exception` subclasses the code can hit). -/
inductive PyErr where
  | fileNotFound
  | jsonDecodeError
  | xmlParseError
  | valueError
  | typeError
  | attributeError
  | indexError
deriving DecidableEq, Repr

/-- A whitespace-separated text field of a YOLO line (or an XML text node),
abstracted by how Python's numeric constructors treat it:
`intTok n` is text accepted by both `int` and `float`; `floatTok q` is text
accepted by `float` but rejected by `int`; `badTok` is rejected by both
(this also stands for a missing text node, where the raised class differs
but is equally caught by the catch-all handler). -/
inductive Token where
  | intTok (n : ℤ)
  | floatTok (q : ℚ)
  | badTok
deriving DecidableEq, Repr

/-- Python `int(text)` on a token. -/
def tokInt : Token → Except PyErr ℤ
  | .intTok n => .ok n
  | .floatTok _ => .error .valueError
  | .badTok => .error .valueError

/-- Python `float(text)` on a token. -/
def tokFloat : Token → Except PyErr ℚ
  | .intTok n => .ok (n : ℚ)
  | .floatTok q => .ok q
  | .badTok => .error .valueError

/-- Python list indexing `l[i]`: non-negative indices are zero-based,
negative indices count from the end, anything else raises `IndexError`. -/
def pyIndex (l : List String) (i : ℤ) : Except PyErr String :=
  let j := if i < 0 then i + l.length else i
  if 0 ≤ j then
    match l.get? j.toNat with
    | some s => .ok s
    | none => .error .indexError
  else
    .error .indexError

/-- Line 93 of the source:
`class_names[class_id] if class_names and class_id < len(class_names) else f"Class {class_id}"`.
Note the guard only bounds `class_id` from above; negative ids reach
Python's negative indexing. -/
def yoloLabel (class_names : List String) (class_id : ℤ) : Except PyErr String :=
  if class_names ≠ [] ∧ class_id < (class_names.length : ℤ) then
    pyIndex class_names class_id
  else
    .ok ("Class " ++ toString class_id)

/-- One YOLO line (lines 77-100): tokenized by `line.strip().split()`; lines
without exactly 5 fields are skipped, otherwise the normalized values are
denormalized against the image size and truncated to integers. -/
def processYoloLine (class_names : List String) (image_width image_height : ℚ)
    (parts : List Token) : Except PyErr (Option BBox) :=
  match parts with
  | [p0, p1, p2, p3, p4] =>
    match tokInt p0 with
    | .error e => .error e
    | .ok class_id =>
      match tokFloat p1 with
      | .error e => .error e
      | .ok x_center_norm =>
        match tokFloat p2 with
        | .error e => .error e
        | .ok y_center_norm =>
          match tokFloat p3 with
          | .error e => .error e
          | .ok width_norm =>
            match tokFloat p4 with
            | .error e => .error e
            | .ok height_norm =>
              match yoloLabel class_names class_id with
              | .error e => .error e
              | .ok label =>
                .ok (some
                  { label := label
                    x_min := pyInt (x_center_norm * image_width - width_norm * image_width / 2)
                    y_min := pyInt (y_center_norm * image_height - height_norm * image_height / 2)
                    x_max := pyInt (x_center_norm * image_width + width_norm * image_width / 2)
                    y_max := pyInt (y_center_norm * image_height + height_norm * image_height / 2) })
  | _ => .ok none

/-- The value found under the `coordinates` key of a custom-JSON entry
(lines 37-43). `absent` is a missing key or a falsy value (skipped by
`if coords:`); `fields` is a truthy dict whose four coordinate keys each
hold a number or are missing; `raising` is any other shape, whose
processing raises an exception. -/
inductive CoordsVal where
  | absent
  | fields (x y width height : Option ℚ)
  | raising
deriving DecidableEq

/-- One element of the `annotations` list of a custom-JSON file
(lines 35-50). `raising` is an element that is not a dict, so `anno.get`
raises `AttributeError`. -/
inductive JsonEntry where
  | anno (label : Option String) (coordinates : CoordsVal)
  | raising
deriving DecidableEq

/-- Default label, `anno.get('label', 'No Label')` / `'No Label'` fallback. -/
def defaultLabel : String := "No Label"

/-- Lines 35-50: one iteration of the custom-JSON entry loop. A box is
appended only when all four coordinate fields are present; otherwise the
entry contributes nothing — note the source has no `else` branch here, so
nothing is printed for a skipped entry. -/
def processJsonEntry : JsonEntry → Except PyErr (Option BBox)
  | .raising => .error .attributeError
  | .anno lbl coords =>
    match coords with
    | .absent => .ok none
    | .raising => .error .typeError
    | .fields x y width height =>
      match x, y, width, height with
      | some xv, some yv, some wv, some hv =>
        .ok (some
          { label := lbl.getD defaultLabel
            x_min := pyInt xv
            y_min := pyInt yv
            x_max := pyInt (xv + wv)
            y_max := pyInt (yv + hv) })
      | _, _, _, _ => .ok none

/-- The `bndbox` child of an XML `object` element: each coordinate child is
either missing (`.find` returns `None`, so `.text` raises) or carries a
text token fed to `int(float(text))`. -/
structure BndBoxElem where
  xmin : Option Token
  ymin : Option Token
  xmax : Option Token
  ymax : Option Token
deriving DecidableEq

/-- An XML `object` element: optional `name` text and optional `bndbox`. -/
structure XmlObject where
  name : Option String
  bndbox : Option BndBoxElem
deriving DecidableEq

/-- `int(float(bndbox.find(tag).text))` for one coordinate child. -/
def xmlCoord (t : Option Token) : Except PyErr ℤ :=
  match t with
  | none => .error .attributeError
  | some tok =>
    match tokFloat tok with
    | .error e => .error e
    | .ok q => .ok (pyInt q)

/-- Lines 57-71: one iteration of the XML object loop. An object without a
`bndbox` contributes nothing; label defaults to `No Label`. -/
def processXmlObject (obj : XmlObject) : Except PyErr (Option BBox) :=
  match obj.bndbox with
  | none => .ok none
  | some b =>
    match xmlCoord b.xmin with
    | .error e => .error e
    | .ok x_min =>
      match xmlCoord b.ymin with
      | .error e => .error e
      | .ok y_min =>
        match xmlCoord b.xmax with
        | .error e => .error e
        | .ok x_max =>
          match xmlCoord b.ymax with
          | .error e => .error e
          | .ok y_max =>
            .ok (some
              { label := obj.name.getD defaultLabel
                x_min := x_min, y_min := y_min, x_max := x_max, y_max := y_max })

/-- Runs an `annotations.append`-style loop over a list of items: items
yielding `none` are skipped, items yielding a box are appended, and a
raised exception stops the loop, leaving the boxes accumulated so far
(the mutable `annotations` list survives into the handler). -/
def runEntries {α : Type} (f : α → Except PyErr (Option BBox)) :
    List α → List BBox × Option PyErr
  | [] => ([], none)
  | a :: rest =>
    match f a with
    | .error e => ([], some e)
    | .ok none => runEntries f rest
    | .ok (some b) =>
      match runEntries f rest with
      | (bs, err) => (b :: bs, err)

/-- Result of `json.load` on the annotation file: a decode failure, a
value rejected by the line-34 guard (falsy, not a list, or a first
element that is a dict without the `annotations` key — warned about and
yielding zero boxes), a value on which the guard or the loop header itself
raises (first element not a dict, `annotations` value not iterable), or
the guarded list of entries. -/
inductive JsonReadResult where
  | decodeError
  | shapeMismatch
  | guardRaises
  | entries (l : List JsonEntry)
deriving DecidableEq

/-- Result of `ET.parse` on the annotation file. -/
inductive XmlReadResult where
  | parseError
  | objects (l : List XmlObject)
deriving DecidableEq

/-- The on-disk annotation file, as seen through the three readers the
source may apply to it: `onDisk = false` makes every `open`/`ET.parse`
raise `FileNotFoundError`; otherwise `asJson` is what `json.load` yields,
`asXml` what `ET.parse` yields, and `asLines` the `line.strip().split()`
tokenization of each line. -/
structure FileData where
  onDisk : Bool
  asJson : JsonReadResult
  asXml : XmlReadResult
  asLines : List (List Token)
deriving DecidableEq

/-- The four branches of the extension dispatch. -/
inductive FileFormat where
  | json
  | xml
  | txt
  | unsupported
deriving DecidableEq, Repr

/-- Line 27 plus the branch heads of lines 30/54/73/101:
`file_extension = os.path.splitext(annotation_path)[1].lower()` followed by
comparison against the three supported extensions. The argument is the
raw `splitext` extension. -/
def formatOf (ext : String) : FileFormat :=
  if pyLower ext == ".json" then .json
  else if pyLower ext == ".xml" then .xml
  else if pyLower ext == ".txt" then .txt
  else .unsupported

/-- The messages printed by the three `except` handlers (lines 104-109),
keyed by the class of the exception that reached them. -/
def handlerLog : PyErr → String
  | .fileNotFound => "Annotation file not found"
  | .jsonDecodeError => "Error parsing annotation file"
  | .xmlParseError => "Error parsing annotation file"
  | .valueError => "Error parsing annotation file"
  | _ => "An unexpected error occurred while parsing"

/-- The `try` body of `parse_annotations` (lines 29-102): dispatch on the
lowered extension, run the matching branch, and report the boxes
accumulated, the lines printed, and the exception raised (if any). -/
def parseBody (ext : String) (image_width image_height : ℚ)
    (class_names : List String) (d : FileData) :
    List BBox × List String × Option PyErr :=
  match formatOf ext with
  | .json =>
    if d.onDisk then
      match d.asJson with
      | .decodeError => ([], [], some .jsonDecodeError)
      | .shapeMismatch => ([], ["Warning: JSON structure not as expected"], none)
      | .guardRaises => ([], [], some .typeError)
      | .entries l =>
        match runEntries processJsonEntry l with
        | (bs, err) => (bs, [], err)
    else ([], [], some .fileNotFound)
  | .xml =>
    if d.onDisk then
      match d.asXml with
      | .parseError => ([], [], some .xmlParseError)
      | .objects objs =>
        match runEntries processXmlObject objs with
        | (bs, err) => (bs, [], err)
    else ([], [], some .fileNotFound)
  | .txt =>
    let warn := if class_names.isEmpty then
      ["Warning: No class names provided for YOLO file"] else []
    if d.onDisk then
      match runEntries (processYoloLine class_names image_width image_height) d.asLines with
      | (bs, err) => (bs, warn, err)
    else (([] : List BBox), warn, some PyErr.fileNotFound)
  | .unsupported =>
    ([], ["Unsupported annotation file format: " ++ pyLower ext], none)

/-- `parse_annotations` with its exception behaviour left visible: an
`Except` value that is `.ok` exactly when no exception escapes the
function. Every arm of the source's `try/except` falls through to
`return annotations`, so every branch here is `.ok`. -/
def parse_annotationsExc (ext : String) (image_width image_height : ℚ)
    (class_names : List String) (d : FileData) :
    Except PyErr (List BBox × List String) :=
  match parseBody ext image_width image_height class_names d with
  | (bs, logs, none) => .ok (bs, logs)
  | (bs, logs, some e) => .ok (bs, logs ++ [handlerLog e])

/-- Lines 21-111, `parse_annotations`: returns the normalized boxes and
the log lines printed, never raising. -/
def parse_annotations (ext : String) (image_width image_height : ℚ)
    (class_names : List String) (d : FileData) : List BBox × List String :=
  match parseBody ext image_width image_height class_names d with
  | (bs, logs, none) => (bs, logs)
  | (bs, logs, some e) => (bs, logs ++ [handlerLog e])

/-- A freehand drawing entry of `self.drawings_on_canvas`: the source
stores `(coords, dtype, options)` where `coords` is a flat even-length
list `[x0, y0, x1, y1, ...]` of image-space floats (modelled here as the
list of its `(x, y)` pairs, the pairing used by every consumer) and
`options` is a dict read only at keys `fill` and `width`. -/
structure Drawing where
  coords : List (ℚ × ℚ)
  dtype : String
  fill : Option String
  width : Option ℕ
deriving DecidableEq

/-- Lines 419-423, `_canvas_to_image_coords`: the screen-to-image
transform `((canvas_x - offset_x) / zoom, (canvas_y - offset_y) / zoom)`
(`canvas.canvasx`/`canvasy` scrolling is already folded into the
screen coordinate). -/
def canvas_to_image_coords (zoom_level offset_x offset_y : ℚ)
    (canvas_x canvas_y : ℚ) : ℚ × ℚ :=
  ((canvas_x - offset_x) / zoom_level, (canvas_y - offset_y) / zoom_level)

/-- Lines 351-353 of `redraw_canvas`: the forward image-to-screen
placement of one point — scale by `zoom_level`, then add the x/y offset
by coordinate parity. -/
def to_screen_space (zoom_level offset_x offset_y : ℚ) (p : ℚ × ℚ) : ℚ × ℚ :=
  (p.1 * zoom_level + offset_x, p.2 * zoom_level + offset_y)

/-- Lines 404-417, `on_mouse_wheel_zoom` (zoom-level update, image
loaded): `zoom_factor = 1.1 if (event.delta > 0 or event.num == 4) else
1/1.1`, then `zoom_level *= zoom_factor`. -/
def on_mouse_wheel_zoom (delta : ℤ) (num : ℕ) (zoom_level : ℚ) : ℚ :=
  let zoom_factor : ℚ := if 0 < delta ∨ num = 4 then 11 / 10 else 1 / (11 / 10)
  zoom_level * zoom_factor

/-- Lines 453-469, `do_erase` (image loaded): with
`tolerance = 5 / zoom_level`, keep exactly the drawings none of whose
points is within the tolerance box of the erase point; a drawing with any
near point is dropped whole. -/
def do_erase (zoom_level : ℚ) (erase_x erase_y : ℚ)
    (drawings : List Drawing) : List Drawing :=
  let tolerance := 5 / zoom_level
  drawings.filter fun drawing =>
    ! drawing.coords.any fun p =>
      decide (|p.1 - erase_x| < tolerance) && decide (|p.2 - erase_y| < tolerance)

/-- A primitive burned into a PIL image's pixels by an `ImageDraw` call:
the box rectangles and label texts of `draw_bounding_boxes`, and the
stroke lines of `save_current_image`. -/
inductive Prim where
  | rect (x_min y_min x_max y_max : ℤ) (outline : String) (width : ℕ)
  | text (pos : ℤ × ℤ) (content : String) (fill : String)
  | line (coords : List (ℚ × ℚ)) (fill : String) (width : ℕ)
deriving DecidableEq

/-- A PIL image, abstracted as its source raster (`base`, the path the
pixels were loaded from) plus the primitives drawn into it, in order. -/
structure PImage where
  base : String
  prims : List Prim
deriving DecidableEq

/-- Substring test on character lists (Python's `needle in hay`). -/
def listPrefixEq : List Char → List Char → Bool
  | [], _ => true
  | _ :: _, [] => false
  | a :: as, b :: bs => a == b && listPrefixEq as bs

/-- Substring test, `needle in hay` for strings. -/
def strHasSub (needle : String) : String → Bool :=
  fun hay => go needle.data hay.data
where
  go (n : List Char) : List Char → Bool
    | [] => listPrefixEq n []
    | c :: rest => listPrefixEq n (c :: rest) || go n rest

/-- Lines 128-133: box color by case-insensitive substring match on the
label. -/
def boxColor (label : String) : String :=
  if strHasSub "silver marking" (pyLower label) then "yellow"
  else if strHasSub "balancing weight" (pyLower label) then "cyan"
  else "red"

/-- Lines 113-140, `draw_bounding_boxes` on the complete dicts that
`parse_annotations` produces (all four coordinate keys always populated,
so the line-139 missing-coordinate warning branch is not reachable from
this caller): draws, on a copy of the image at `image_path`, a width-3
rectangle per box plus its label text just above the top edge, or just
below it when `y_min - 20` would leave the image. -/
def draw_bounding_boxes (image_path : String) (annos : List BBox) : PImage :=
  { base := image_path
    prims := annos.flatMap fun a =>
      [ Prim.rect a.x_min a.y_min a.x_max a.y_max (boxColor a.label) 3,
        Prim.text (a.x_min, if 0 < a.y_min - 20 then a.y_min - 20 else a.y_min + 5)
          a.label (boxColor a.label) ] }

/-- Lines 573-575: the stroke drawn for one `drawings_on_canvas` entry at
save time — only entries with `dtype == "line"` are drawn, with
`options.get("fill", "blue")` and `options.get("width", 2)`. -/
def strokeLine (d : Drawing) : Option Prim :=
  if d.dtype == "line" then
    some (Prim.line d.coords (d.fill.getD "blue") (d.width.getD 2))
  else none

/-- Recognizes a stroke-line primitive (as opposed to the rectangle and
text primitives of `draw_bounding_boxes`). -/
def isLinePrim : Prim → Bool
  | .line _ _ _ => true
  | _ => false

/-- Lines 558-580, `save_current_image`: with no image loaded nothing is
written; otherwise the file receives a copy of `original_image_pil` with
each current `"line"` drawing burned in, and nothing else. -/
def save_current_image (original_image_pil : Option PImage)
    (drawings_on_canvas : List Drawing) : Option PImage :=
  match original_image_pil with
  | none => none
  | some img =>
    some { base := img.base, prims := img.prims ++ drawings_on_canvas.filterMap strokeLine }

/-- Lines 322-325 / 484-487: `process_single_image` hands
`draw_bounding_boxes(image_p, annotations)` to
`display_image_on_canvas`, which stores it as `original_image_pil`; the
session's loaded image is therefore the raster with the parsed boxes
already burned in. -/
def process_single_image_display (image_p : String) (annos : List BBox) : PImage :=
  draw_bounding_boxes image_p annos

/-! ## Helper lemmas -/

theorem pyInt_intCast (a : ℤ) : pyInt (a : ℚ) = a := by
  unfold pyInt
  split <;> simp

theorem pyInt_int_add (a b : ℤ) : pyInt ((a : ℚ) + (b : ℚ)) = a + b := by
  rw [← Int.cast_add]
  exact pyInt_intCast _

theorem strokeLine_all_line (ds : List Drawing) :
    (ds.filterMap strokeLine).all isLinePrim = true := by
  induction ds with
  | nil => rfl
  | cons d t ih =>
    cases h : strokeLine d with
    | none => simpa [List.filterMap_cons, h] using ih
    | some p =>
      have hp : isLinePrim p = true := by
        unfold strokeLine at h
        split at h
        · cases h
          rfl
        · cases h
      simp [List.filterMap_cons, h, hp, ih]

theorem runEntries_skip {α : Type} (f : α → Except PyErr (Option BBox)) (e : α)
    (he : f e = .ok none) (pre post : List α) :
    runEntries f (pre ++ e :: post) = runEntries f (pre ++ post) := by
  induction pre with
  | nil => simp [runEntries, he]
  | cons a t ih => simp [runEntries, ih]

theorem processJsonEntry_missing_field (lbl : Option String) (x y w h : Option ℚ)
    (hm : x = none ∨ y = none ∨ w = none ∨ h = none) :
    processJsonEntry (.anno lbl (.fields x y w h)) = .ok none := by
  rcases x with _ | xv <;> rcases y with _ | yv <;>
    rcases w with _ | wv <;> rcases h with _ | hv <;>
    first
      | rfl
      | simp_all

theorem formatOf_json : formatOf ".json" = FileFormat.json := by decide

/-! ## Claim theorems -/

/-- C1: the save operation writes the loaded image with exactly the
current freehand strokes burned in and nothing else of its own: every
primitive it adds is a stroke line (never a box rectangle or label text),
so the saved file shows parsed boxes only when the caller already baked
them into the loaded image — which the `process_single_image` display
path does by loading `draw_bounding_boxes`' output. With no image loaded
nothing is written. -/
theorem c1_save_persists_strokes :
    ∀ (img : PImage) (ds : List Drawing) (path : String) (annos : List BBox),
      save_current_image (some img) ds
        = some { base := img.base, prims := img.prims ++ ds.filterMap strokeLine } ∧
      (ds.filterMap strokeLine).all isLinePrim = true ∧
      save_current_image (some { base := path, prims := [] }) ds
        = some { base := path, prims := ds.filterMap strokeLine } ∧
      save_current_image (some (process_single_image_display path annos)) ds
        = some { base := path,
                 prims := (draw_bounding_boxes path annos).prims ++ ds.filterMap strokeLine } ∧
      save_current_image none ds = none := by
  intro img ds path annos
  exact ⟨rfl, strokeLine_all_line ds, rfl, rfl, rfl⟩

/-- C10: extension dispatch is case-insensitive — the extension is
lowercased before comparison, two extensions with the same lowercase form
select the same parser, and exactly the extensions whose lowercase form is
none of `.json`/`.xml`/`.txt` reach the unsupported-format branch. -/
theorem c10_case_insensitive_dispatch :
    (∀ s t : String, pyLower s = pyLower t → formatOf s = formatOf t) ∧
    formatOf ".JSON" = FileFormat.json ∧
    formatOf ".Xml" = FileFormat.xml ∧
    formatOf ".Txt" = FileFormat.txt ∧
    formatOf ".JSON" = formatOf ".json" ∧
    (∀ s : String, formatOf s = FileFormat.unsupported ↔
      (pyLower s ≠ ".json" ∧ pyLower s ≠ ".xml" ∧ pyLower s ≠ ".txt")) := by
  refine ⟨?_, by decide, by decide, by decide, by decide, ?_⟩
  · intro s t h
    unfold formatOf
    rw [h]
  · intro s
    unfold formatOf
    split_ifs with h1 h2 h3 <;>
      simp_all [beq_iff_eq]

/-- C10 witness: `.JSON` selects the same parser as `.json`. -/
theorem c10_witness : formatOf ".JSON" = formatOf ".json" :=
  c10_case_insensitive_dispatch.1 ".JSON" ".json" (by decide)

/-- C2 counterexample: erasing at image point (50,50) with zoom 2 removes
a whole stroke as soon as one of its points is near, including its stored
point (100,100), whose axis distances (50 each) are far above the 5/2
tolerance — so points other than the near ones are removed, contrary to
the claim. -/
theorem c2_counterexample :
    do_erase 2 50 50 [⟨[((50 : ℚ), (50 : ℚ)), (100, 100)], "line", some "blue", some 2⟩]
      = [] ∧
    ¬(|(100 : ℚ) - 50| < 5 / 2) := by
  constructor
  · norm_num [do_erase, List.filter_cons, List.any_cons]
  · norm_num

/-- C2 amended: the erase gesture filters whole drawings, not points — a
stored stroke survives exactly when none of its points has both axis
distances to the erase point below `5 / zoom_level`; a stroke with any
near point is removed entire (its far points included), and the list is a
sublist of the original (no other stroke is touched). At image point
(50,50) with `zoom_level = 2` the tolerance is `5 / 2` image-pixels. -/
theorem c2_amended_whole_strokes :
    ∀ (zoom_level erase_x erase_y : ℚ) (ds : List Drawing),
      0 < zoom_level →
      (List.Sublist (do_erase zoom_level erase_x erase_y ds) ds ∧
        ∀ d : Drawing, d ∈ do_erase zoom_level erase_x erase_y ds ↔
          (d ∈ ds ∧ ∀ p ∈ d.coords,
            ¬(|p.1 - erase_x| < 5 / zoom_level ∧ |p.2 - erase_y| < 5 / zoom_level))) := by
  intro z ex ey ds hz
  constructor
  · simpa only [do_erase] using List.filter_sublist ds
  · intro d
    simp only [do_erase, List.mem_filter, Bool.not_eq_true', List.any_eq_false,
      Bool.and_eq_true, decide_eq_true_eq, not_and]

/-- C2 witness: a stroke whose sole point is far from the erase point
survives the erase at (50,50), zoom 2. -/
theorem c2_witness :
    ((⟨[((100 : ℚ), (100 : ℚ))], "line", some "blue", some 2⟩ : Drawing)
        ∈ do_erase 2 50 50 [⟨[((100 : ℚ), (100 : ℚ))], "line", some "blue", some 2⟩]) := by
  refine ((c2_amended_whole_strokes 2 50 50 _ (by norm_num)).2 _).2 ⟨?_, ?_⟩
  · simp
  · intro p hp
    simp only [List.mem_singleton] at hp
    subst hp
    norm_num

/-- C3 counterexample: a custom-JSON entry with fractional width 1/2 (at
x = 0) yields `x_max = int(0 + 1/2) = 0`, so `x_max - x_min = 0 ≠ width`:
the claimed exact equalities fail for non-integer coordinate fields. -/
theorem c3_counterexample :
    processJsonEntry (.anno (some "L") (.fields (some 0) (some 0) (some (1 / 2)) (some 1)))
      = .ok (some { label := "L", x_min := 0, y_min := 0, x_max := 0, y_max := 1 }) ∧
    ¬(((0 : ℤ) - 0 : ℚ) = 1 / 2) := by
  constructor
  · norm_num [processJsonEntry, pyInt, defaultLabel]
  · norm_num

/-- C3 amended: for an entry with all four coordinate fields the produced
box is `x_min = int(x)`, `y_min = int(y)`, `x_max = int(x + width)`,
`y_max = int(y + height)` (Python truncation); when the four fields are
integers this gives exactly `x_min = x`, `x_max = x + width` (likewise for
y), hence `x_max - x_min = width` and `y_max - y_min = height` exactly,
and the example entry yields the stated box. -/
theorem c3_amended_truncated_box :
    ∀ (lbl : Option String) (x y w h : ℚ) (a b c d : ℤ),
      processJsonEntry (.anno lbl (.fields (some x) (some y) (some w) (some h)))
        = .ok (some { label := lbl.getD defaultLabel, x_min := pyInt x, y_min := pyInt y,
                      x_max := pyInt (x + w), y_max := pyInt (y + h) }) ∧
      processJsonEntry
          (.anno lbl (.fields (some (a : ℚ)) (some (b : ℚ)) (some (c : ℚ)) (some (d : ℚ))))
        = .ok (some { label := lbl.getD defaultLabel, x_min := a, y_min := b,
                      x_max := a + c, y_max := b + d }) ∧
      (a + c) - a = c ∧ (b + d) - b = d ∧
      processJsonEntry (.anno (some "Weight") (.fields (some 10) (some 20) (some 30) (some 40)))
        = .ok (some { label := "Weight", x_min := 10, y_min := 20, x_max := 40, y_max := 60 }) := by
  intro lbl x y w h a b c d
  refine ⟨rfl, ?_, by ring, by ring, by norm_num [processJsonEntry, pyInt, defaultLabel]⟩
  simp [processJsonEntry, pyInt_intCast, pyInt_int_add]

/-- C4: the screen-to-image transform of `_canvas_to_image_coords` is the
exact inverse of the forward placement transform of `redraw_canvas`: for
any positive zoom and any offsets, projecting a screen point to image
space and back recovers it exactly, in particular within 1 pixel. -/
theorem c4_round_trip :
    ∀ (zoom_level offset_x offset_y sx sy : ℚ), 0 < zoom_level →
      (to_screen_space zoom_level offset_x offset_y
          (canvas_to_image_coords zoom_level offset_x offset_y sx sy) = (sx, sy) ∧
        |(to_screen_space zoom_level offset_x offset_y
            (canvas_to_image_coords zoom_level offset_x offset_y sx sy)).1 - sx| ≤ 1 ∧
        |(to_screen_space zoom_level offset_x offset_y
            (canvas_to_image_coords zoom_level offset_x offset_y sx sy)).2 - sy| ≤ 1) := by
  intro z ox oy sx sy hz
  have hne : z ≠ 0 := ne_of_gt hz
  have h1 : to_screen_space z ox oy (canvas_to_image_coords z ox oy sx sy) = (sx, sy) := by
    simp only [to_screen_space, canvas_to_image_coords, Prod.mk.injEq]
    constructor <;> field_simp
  refine ⟨h1, ?_, ?_⟩ <;> rw [h1] <;> norm_num

/-- C4 witness: round trip at zoom 2, offsets (3,4), screen point (10,20). -/
theorem c4_witness :
    to_screen_space 2 3 4 (canvas_to_image_coords 2 3 4 10 20) = (10, 20) :=
  (c4_round_trip 2 3 4 10 20 (by norm_num)).1

/-- C5: a 5-token YOLO line whose fields parse (and whose label lookup
succeeds) produces the box obtained by denormalizing the center/size
against the image dimensions and truncating
`center ± size/2` to integer; in particular `0 0.5 0.5 0.2 0.2` on a
100×100 image with no class table yields
`{Class 0, 40, 40, 60, 60}`. -/
theorem c5_yolo_denormalization :
    ∀ (class_names : List String) (w h : ℚ) (c : ℤ) (p1 p2 p3 p4 : Token)
      (q1 q2 q3 q4 : ℚ) (lbl : String),
      tokFloat p1 = .ok q1 → tokFloat p2 = .ok q2 →
      tokFloat p3 = .ok q3 → tokFloat p4 = .ok q4 →
      0 ≤ q1 → q1 ≤ 1 → 0 ≤ q2 → q2 ≤ 1 → 0 ≤ q3 → q3 ≤ 1 → 0 ≤ q4 → q4 ≤ 1 →
      yoloLabel class_names c = .ok lbl →
      (processYoloLine class_names w h [.intTok c, p1, p2, p3, p4]
        = .ok (some { label := lbl,
                      x_min := pyInt (q1 * w - q3 * w / 2),
                      y_min := pyInt (q2 * h - q4 * h / 2),
                      x_max := pyInt (q1 * w + q3 * w / 2),
                      y_max := pyInt (q2 * h + q4 * h / 2) }) ∧
        processYoloLine [] 100 100
            [.intTok 0, .floatTok (1 / 2), .floatTok (1 / 2), .floatTok (1 / 5), .floatTok (1 / 5)]
          = .ok (some { label := "Class 0", x_min := 40, y_min := 40,
                        x_max := 60, y_max := 60 })) := by
  intro cn w h c p1 p2 p3 p4 q1 q2 q3 q4 lbl h1 h2 h3 h4 _ _ _ _ _ _ _ _ hlbl
  constructor
  · simp only [processYoloLine, tokInt, h1, h2, h3, h4, hlbl]
  · norm_num [processYoloLine, tokInt, tokFloat, yoloLabel, pyInt]
    decide

/-- C5 witness: the example line, with every hypothesis discharged at the
concrete input. -/
theorem c5_witness :
    processYoloLine [] 100 100
        [.intTok 0, .floatTok (1 / 2), .floatTok (1 / 2), .floatTok (1 / 5), .floatTok (1 / 5)]
      = .ok (some { label := "Class 0",
                    x_min := pyInt ((1 / 2) * 100 - (1 / 5) * 100 / 2),
                    y_min := pyInt ((1 / 2) * 100 - (1 / 5) * 100 / 2),
                    x_max := pyInt ((1 / 2) * 100 + (1 / 5) * 100 / 2),
                    y_max := pyInt ((1 / 2) * 100 + (1 / 5) * 100 / 2) }) :=
  (c5_yolo_denormalization [] 100 100 0 (.floatTok (1 / 2)) (.floatTok (1 / 2))
    (.floatTok (1 / 5)) (.floatTok (1 / 5)) (1 / 2) (1 / 2) (1 / 5) (1 / 5) "Class 0"
    rfl rfl rfl rfl (by norm_num) (by norm_num) (by norm_num) (by norm_num)
    (by norm_num) (by norm_num) (by norm_num) (by norm_num)
    (by simp only [yoloLabel]; norm_num; decide)).1

/-- C6 counterexample: with the class table `["a", "b"]`, the YOLO class
id −1 passes the guard `class_names and class_id < len(class_names)` and
Python's negative indexing returns the last table entry `"b"`, not the
claimed literal `"Class -1"`. -/
theorem c6_counterexample :
    yoloLabel ["a", "b"] (-1) = .ok "b" ∧
    yoloLabel ["a", "b"] (-1) ≠ .ok ("Class " ++ toString (-1 : ℤ)) ∧
    processYoloLine ["a", "b"] 100 100
        [.intTok (-1), .floatTok (1 / 2), .floatTok (1 / 2), .floatTok (1 / 5), .floatTok (1 / 5)]
      = .ok (some { label := "b", x_min := 40, y_min := 40, x_max := 60, y_max := 60 }) := by
  have h1 : yoloLabel ["a", "b"] (-1) = .ok "b" := by
    rw [yoloLabel, if_pos (by refine ⟨by simp, by norm_num⟩)]
    norm_num [pyIndex]
  refine ⟨h1, ?_, ?_⟩
  · rw [h1]
    intro hcontra
    have hs := Except.ok.inj hcontra
    revert hs
    decide
  · norm_num [processYoloLine, tokInt, tokFloat, pyInt, h1]

/-- C6 amended: the label guard only bounds the class id from above. With
no table (or an empty one) or with `class_id ≥ len`, the label is the
literal `Class {id}`. With a non-empty table and `class_id < len`, Python
indexing applies: ids in `[0, len)` select that entry, ids in `[-len, 0)`
select the entry at `len + id`, and ids below `-len` raise `IndexError`
(caught by the outer handler, which ends the parse with the boxes so
far). -/
theorem c6_amended_python_indexing :
    ∀ (class_names : List String) (c : ℤ),
      ((class_names = [] ∨ (class_names.length : ℤ) ≤ c) →
        yoloLabel class_names c = .ok ("Class " ++ toString c)) ∧
      (class_names ≠ [] → c < (class_names.length : ℤ) →
        yoloLabel class_names c = pyIndex class_names c) ∧
      (0 ≤ c → c < (class_names.length : ℤ) → ∀ s, class_names.get? c.toNat = some s →
        yoloLabel class_names c = .ok s) ∧
      (c < 0 → -(class_names.length : ℤ) ≤ c → ∀ s,
        class_names.get? (c + (class_names.length : ℤ)).toNat = some s →
        yoloLabel class_names c = .ok s) ∧
      (class_names ≠ [] → c < -(class_names.length : ℤ) →
        yoloLabel class_names c = .error .indexError) := by
  intro cn c
  refine ⟨?_, ?_, ?_, ?_, ?_⟩
  · intro hc
    rcases hc with hc | hc
    · subst hc
      simp [yoloLabel]
    · rw [yoloLabel, if_neg]
      rintro ⟨_, hlt⟩
      omega
  · intro hne hlt
    rw [yoloLabel, if_pos ⟨hne, hlt⟩]
  · intro h0 hlt s hs
    have hne : cn ≠ [] := by
      intro hnil
      subst hnil
      simp at hlt
      omega
    rw [yoloLabel, if_pos ⟨hne, hlt⟩, pyIndex]
    simp only [if_neg (not_lt.mpr h0), if_pos h0, hs]
  · intro hneg hge s hs
    have hlenpos : 0 < (cn.length : ℤ) := by omega
    have hne : cn ≠ [] := by
      intro hnil
      subst hnil
      simp at hlenpos
    have hlt : c < (cn.length : ℤ) := by omega
    rw [yoloLabel, if_pos ⟨hne, hlt⟩, pyIndex]
    simp only [if_pos hneg]
    rw [if_pos (by omega : (0 : ℤ) ≤ c + (cn.length : ℤ)), hs]
  · intro hne hbelow
    have hlen0 : (0 : ℤ) ≤ (cn.length : ℤ) := by positivity
    have hlt : c < (cn.length : ℤ) := by omega
    rw [yoloLabel, if_pos ⟨hne, hlt⟩, pyIndex]
    simp only [if_pos (by omega : c < 0)]
    rw [if_neg (by omega : ¬(0 : ℤ) ≤ c + (cn.length : ℤ))]

/-- C6 witness: Python indexing at class id −1 against the table
`["a", "b"]` yields the last entry. -/
theorem c6_witness : yoloLabel ["a", "b"] (-1) = .ok "b" :=
  (c6_amended_python_indexing ["a", "b"] (-1)).2.2.2.1 (by norm_num) (by norm_num) "b"
    (by norm_num)

/-- C7: the annotation normalizer catches every exception its body can
raise and always returns a (possibly empty) list of boxes — the
`Except`-valued view of the function is `.ok` on every input; moreover a
missing file yields zero boxes, and an unsupported extension yields zero
boxes plus the unsupported-format log line. -/
theorem c7_never_raises :
    ∀ (ext : String) (w h : ℚ) (cn : List String) (d : FileData),
      (parse_annotationsExc ext w h cn d).isOk = true ∧
      (d.onDisk = false → (parse_annotations ext w h cn d).1 = []) ∧
      (formatOf ext = .unsupported →
        parse_annotations ext w h cn d
          = ([], ["Unsupported annotation file format: " ++ pyLower ext])) := by
  intro ext w h cn d
  refine ⟨?_, ?_, ?_⟩
  · unfold parse_annotationsExc
    rcases hp : parseBody ext w h cn d with ⟨bs, logs, err⟩
    cases err <;> rfl
  · intro hd
    obtain ⟨od, aj, ax, al⟩ := d
    simp only at hd
    subst hd
    cases hfmt : formatOf ext <;>
      simp [parse_annotations, parseBody, hfmt]
  · intro hfmt
    simp [parse_annotations, parseBody, hfmt]

/-- C7 witness: a missing file with an unsupported extension returns
normally with zero boxes and the logged notice. -/
theorem c7_witness :
    (parse_annotationsExc ".foo" 1 1 [] ⟨false, .decodeError, .parseError, []⟩).isOk = true ∧
    (parse_annotations ".foo" 1 1 [] ⟨false, .decodeError, .parseError, []⟩).1 = [] ∧
    parse_annotations ".foo" 1 1 [] ⟨false, .decodeError, .parseError, []⟩
      = ([], ["Unsupported annotation file format: " ++ pyLower ".foo"]) := by
  obtain ⟨h1, h2, h3⟩ := c7_never_raises ".foo" 1 1 [] ⟨false, .decodeError, .parseError, []⟩
  exact ⟨h1, h2 rfl, h3 (by decide)⟩

/-- C8 counterexample: a custom-JSON entry missing its `width` field is
skipped, but — contrary to the claim — no warning is logged for it: the
parse returns zero boxes and an empty log list. -/
theorem c8_counterexample :
    parse_annotations ".json" 100 100 []
        ⟨true, .entries [.anno (some "L") (.fields (some 1) (some 2) none (some 4))],
          .parseError, []⟩
      = ([], []) := by
  rfl

/-- C8 amended: an entry missing any of the four coordinate fields
contributes no box and parsing of the remaining entries continues
unchanged, but silently — the source's entry loop has no warning branch,
so the parse output (boxes and logs alike) is as if the entry were not
there. -/
theorem c8_amended_silent_skip :
    ∀ (pre post : List JsonEntry) (lbl : Option String) (x y w h : Option ℚ)
      (iw ihh : ℚ) (cn : List String) (ax : XmlReadResult) (al : List (List Token)),
      (x = none ∨ y = none ∨ w = none ∨ h = none) →
      (parse_annotations ".json" iw ihh cn
          ⟨true, .entries (pre ++ .anno lbl (.fields x y w h) :: post), ax, al⟩
        = parse_annotations ".json" iw ihh cn ⟨true, .entries (pre ++ post), ax, al⟩ ∧
      processJsonEntry (.anno lbl (.fields x y w h)) = .ok none) := by
  intro pre post lbl x y w h iw ihh cn ax al hm
  have he := processJsonEntry_missing_field lbl x y w h hm
  have hr := runEntries_skip processJsonEntry _ he pre post
  refine ⟨?_, he⟩
  simp only [parse_annotations, parseBody, formatOf_json, hr]

/-- C8 witness: the theorem applied at a concrete entry missing `width`. -/
theorem c8_witness :
    parse_annotations ".json" 100 100 []
        ⟨true, .entries [.anno (some "L") (.fields (some 1) (some 2) none (some 4))],
          .parseError, []⟩
      = parse_annotations ".json" 100 100 [] ⟨true, .entries [], .parseError, []⟩ ∧
    processJsonEntry (.anno (some "L") (.fields (some 1) (some 2) none (some 4)))
      = .ok none :=
  c8_amended_silent_skip [] [] (some "L") (some 1) (some 2) none (some 4)
    100 100 [] .parseError [] (Or.inr (Or.inr (Or.inl rfl)))

/-- C9: from any positive zoom level, N zoom-in gestures multiply the
zoom by exactly (11/10)^N (the idealised 1.1 step), and a zoom-out
gesture is the exact inverse step: a zoom-in followed by a zoom-out
restores the previous zoom level. -/
theorem c9_zoom_steps :
    ∀ (z : ℚ) (N : ℕ) (d : ℤ) (n : ℕ),
      0 < z → (0 < d ∨ n = 4) →
      ((on_mouse_wheel_zoom d n)^[N] z = z * (11 / 10) ^ N ∧
        ∀ (e : ℤ) (m : ℕ), ¬(0 < e ∨ m = 4) →
          on_mouse_wheel_zoom e m (on_mouse_wheel_zoom d n z) = z) := by
  intro z N d n hz hg
  have hstep : ∀ w : ℚ, on_mouse_wheel_zoom d n w = w * (11 / 10) := by
    intro w
    simp only [on_mouse_wheel_zoom]
    rw [if_pos hg]
  constructor
  · induction N with
    | zero => simp
    | succ k ih =>
      rw [Function.iterate_succ_apply', hstep, ih, pow_succ]
      ring
  · intro e m hne
    rw [hstep]
    simp only [on_mouse_wheel_zoom]
    rw [if_neg hne]
    ring

/-- C9 witness: two zoom-ins from zoom 1 give (11/10)^2, and a zoom-out
undoes a zoom-in. -/
theorem c9_witness :
    (on_mouse_wheel_zoom 120 0)^[2] 1 = 1 * (11 / 10) ^ 2 ∧
    on_mouse_wheel_zoom (-120) 5 (on_mouse_wheel_zoom 120 0 1) = 1 := by
  have h := c9_zoom_steps 1 2 120 0 (by norm_num) (Or.inl (by norm_num))
  exact ⟨h.1, h.2 (-120) 5 (by decide)⟩
